import Mathlib

/-!
Shallow embedding of the order-and-inventory core of `src/app.py` (a Flask
restaurant POS backed by sqlite). The four tables (`menu_items`, `orders`,
`order_items`, `stock_history`) plus `users` become lists of rows inside a
`DB` record; autoincrement primary keys for `menu_items` and `orders` become
explicit counters (the row ids of `order_items` and `stock_history` are never
read by the embedded operations, so those rows carry no id and list order
records insertion order). `datetime.now()` becomes an explicit `now : Nat`
parameter measured in minutes, so `timedelta(minutes=15)` is `+ 15`. sqlite
`REAL` prices are modelled as `Int`; the embedded operations only store and
copy prices, never compute with them. A Python function that can raise an
unhandled exception before `conn.commit()` (which rolls the transaction back)
is modelled as returning `none` together with the unchanged state.
-/

/-- A row of the `users` table. -/
structure User where
  id : Nat
  username : String
  password : String
  role : String
  deriving DecidableEq

/-- A row of the `menu_items` table. -/
structure MenuItem where
  id : Nat
  name : String
  price : Int
  category : String
  stock : Int
  requires_side : Bool
  deriving DecidableEq

/-- A row of the `orders` table. -/
structure Order where
  id : Nat
  customer_name : String
  total : Int
  status : String
  payment_method : String
  timestamp : Nat
  ready_time : Option Nat
  completed_at : Option Nat
  cashier_id : Option Nat
  deriving DecidableEq

/-- A row of the `order_items` table (surrogate id omitted, never read). -/
structure OrderItem where
  order_id : Nat
  menu_item_id : Nat
  menu_item_name : String
  quantity : Int
  price : Int
  side_option : Option String
  deriving DecidableEq

/-- A row of the `stock_history` table (surrogate id and timestamp omitted,
never read by the embedded operations). -/
structure StockHistoryEntry where
  menu_item_id : Nat
  menu_item_name : String
  quantity_change : Int
  stock_before : Int
  stock_after : Int
  change_type : String
  notes : String
  puncher_id : Option Nat
  deriving DecidableEq

/-- The whole database state. -/
structure DB where
  users : List User
  menu_items : List MenuItem
  orders : List Order
  order_items : List OrderItem
  stock_history : List StockHistoryEntry
  next_menu_item_id : Nat
  next_order_id : Nat
  deriving DecidableEq

/-- One line of the cart passed to `create_order_db`: a dict with keys
`id`, `name`, `quantity`, `price` and optional `side_option`
(`item.get('side_option', None)`). -/
structure CartLine where
  id : Nat
  name : String
  quantity : Int
  price : Int
  side_option : Option String
  deriving DecidableEq

/-- `get_user_id`: `SELECT id FROM users WHERE username = ?` (first match). -/
def get_user_id (db : DB) (username : String) : Option Nat :=
  (db.users.find? (fun u => u.username == username)).map (fun u => u.id)

/-- The order-item row inserted for one cart line of order `oid`
(`INSERT INTO order_items ...` with `final_price = item['price']`). -/
def mkOrderItem (oid : Nat) (line : CartLine) : OrderItem :=
  { order_id := oid
    menu_item_id := line.id
    menu_item_name := line.name
    quantity := line.quantity
    price := line.price
    side_option := line.side_option }

/-- The `sale` stock-history row inserted for one cart line of order `oid`,
given the stock read just before the decrement
(`stock_after = stock_before - item['quantity']`; the insert lists no
`puncher_id` column, so it is NULL). -/
def mkSaleEntry (oid : Nat) (line : CartLine) (stock_before : Int) : StockHistoryEntry :=
  { menu_item_id := line.id
    menu_item_name := line.name
    quantity_change := -line.quantity
    stock_before := stock_before
    stock_after := stock_before - line.quantity
    change_type := "sale"
    notes := "Order #" ++ toString oid
    puncher_id := none }

/-- The per-line loop body of `create_order_db`: insert the order item, read
the current stock, `UPDATE menu_items SET stock = stock - ?`, and insert a
`sale` row into `stock_history`. A cart line whose `id` matches no menu item
makes the Python code raise (`current['stock']` on `None`) before any
commit, rolling the whole transaction back: modelled by `none`. -/
def create_order_lines (oid : Nat) (items : List CartLine) (db : DB) : Option DB :=
  match items with
  | [] => some db
  | line :: rest =>
    match db.menu_items.find? (fun m => m.id == line.id) with
    | none => none
    | some it =>
      let db1 : DB :=
        { db with
          order_items := db.order_items ++ [mkOrderItem oid line]
          menu_items := db.menu_items.map
            (fun m => if m.id == line.id then { m with stock := m.stock - line.quantity } else m)
          stock_history := db.stock_history ++ [mkSaleEntry oid line it.stock] }
      create_order_lines oid rest db1

/-- The order row inserted by `create_order_db`: `status = 'pending'`,
`ready_time = now + timedelta(minutes=15)`, `completed_at` NULL, the total
stored verbatim, and `cashier_id` resolved via `get_user_id`. -/
def mkOrder (db : DB) (now : Nat) (customer_name : String) (total : Int)
    (cashier_username : String) (payment_method : String) : Order :=
  { id := db.next_order_id
    customer_name := customer_name
    total := total
    status := "pending"
    payment_method := payment_method
    timestamp := now
    ready_time := some (now + 15)
    completed_at := none
    cashier_id := get_user_id db cashier_username }

/-- `create_order_db(customer_name, items, total, cashier_username,
payment_method)`: inserts the order row, then runs the per-line loop with
`order_id = cursor.lastrowid`, then commits and re-queries the order row
(which the loop never touches, so the constructed row is returned). -/
def create_order_db (db : DB) (now : Nat) (customer_name : String)
    (items : List CartLine) (total : Int) (cashier_username : String)
    (payment_method : String) : Option (DB × Order) :=
  let order : Order := mkOrder db now customer_name total cashier_username payment_method
  let db1 : DB :=
    { db with orders := db.orders ++ [order], next_order_id := db.next_order_id + 1 }
  match create_order_lines db.next_order_id items db1 with
  | none => none
  | some db2 => some (db2, order)

/-- `complete_order_db(order_id)`: unconditionally runs
`UPDATE orders SET status = 'ready', completed_at = now WHERE id = ?`,
commits, then re-queries; returns the row or `None` when absent. -/
def complete_order_db (db : DB) (now : Nat) (order_id : Nat) : DB × Option Order :=
  let upd : Order → Order :=
    fun o => if o.id == order_id then { o with status := "ready", completed_at := some now } else o
  let db1 : DB := { db with orders := db.orders.map upd }
  (db1, db1.orders.find? (fun o => o.id == order_id))

/-- `add_menu_item(name, price, category, stock, requires_side,
puncher_username)`: inserts the item, logs an `initial` stock-history row
with `stock_before = 0`, `stock_after = stock`, commits, re-queries. -/
def add_menu_item (db : DB) (name : String) (price : Int) (category : String)
    (stock : Int) (requires_side : Bool) (puncher_username : String) :
    Option (DB × MenuItem) :=
  let puncher_id := get_user_id db puncher_username
  let item : MenuItem :=
    { id := db.next_menu_item_id
      name := name
      price := price
      category := category
      stock := stock
      requires_side := requires_side }
  let db1 : DB :=
    { db with
      menu_items := db.menu_items ++ [item]
      next_menu_item_id := db.next_menu_item_id + 1
      stock_history := db.stock_history ++
        [{ menu_item_id := item.id
           menu_item_name := name
           quantity_change := stock
           stock_before := 0
           stock_after := stock
           change_type := "initial"
           notes := "Initial stock"
           puncher_id := puncher_id }] }
  match db1.menu_items.find? (fun m => m.id == item.id) with
  | none => none
  | some it => some (db1, it)

/-- `update_menu_item(item_id, name, price, category, requires_side,
puncher_username)`: `UPDATE menu_items SET name = ?, price = ?, category = ?,
requires_side = ? WHERE id = ?`, commits, re-queries (`None` when absent). -/
def update_menu_item (db : DB) (item_id : Nat) (name : String) (price : Int)
    (category : String) (requires_side : Bool) (puncher_username : String) :
    DB × Option MenuItem :=
  let upd : MenuItem → MenuItem :=
    fun m => if m.id == item_id then
        { m with name := name, price := price, category := category,
                 requires_side := requires_side }
      else m
  let db1 : DB := { db with menu_items := db.menu_items.map upd }
  (db1, db1.menu_items.find? (fun m => m.id == item_id))

/-- `update_stock(item_id, quantity_change, puncher_username, notes)`: reads
the item (`None` when absent), computes `stock_after = stock_before +
quantity_change`, returns `None` with no write when `stock_after < 0`;
otherwise `UPDATE menu_items SET stock = ? WHERE id = ?`, logs a
stock-history row whose `change_type` is `'restock'` when
`quantity_change > 0` else `'adjustment'`, commits, re-queries. -/
def update_stock (db : DB) (item_id : Nat) (quantity_change : Int)
    (puncher_username : String) (notes : String) : Option (DB × MenuItem) :=
  let puncher_id := get_user_id db puncher_username
  match db.menu_items.find? (fun m => m.id == item_id) with
  | none => none
  | some item =>
    let stock_before := item.stock
    let stock_after := stock_before + quantity_change
    if stock_after < 0 then none
    else
      let change_type := if quantity_change > 0 then "restock" else "adjustment"
      let db1 : DB :=
        { db with
          menu_items := db.menu_items.map
            (fun m => if m.id == item_id then { m with stock := stock_after } else m)
          stock_history := db.stock_history ++
            [{ menu_item_id := item_id
               menu_item_name := item.name
               quantity_change := quantity_change
               stock_before := stock_before
               stock_after := stock_after
               change_type := change_type
               notes := notes
               puncher_id := puncher_id }] }
      match db1.menu_items.find? (fun m => m.id == item_id) with
      | none => none
      | some updated_item => some (db1, updated_item)

/-- Result dict of `delete_menu_item`. -/
structure DeleteResult where
  success : Bool
  message : String
  deriving DecidableEq

/-- `delete_menu_item(item_id)`: counts `order_items` referencing the item;
when positive, returns a structured rejection with no mutation; otherwise
deletes the menu item row and all its `stock_history` rows. -/
def delete_menu_item (db : DB) (item_id : Nat) : DeleteResult × DB :=
  let orders_count := (db.order_items.filter (fun oi => oi.menu_item_id == item_id)).length
  if orders_count > 0 then
    ({ success := false, message := "Cannot delete item that has been used in orders" }, db)
  else
    ({ success := true, message := "Item deleted successfully" },
     { db with
       menu_items := db.menu_items.filter (fun m => !(m.id == item_id))
       stock_history := db.stock_history.filter (fun e => !(e.menu_item_id == item_id)) })

/-- Result of the HTTP route `/api/puncher/stock/<item_id>`: either the
updated item (200) or an error body with status code. -/
inductive ApiResult where
  | ok (item : MenuItem)
  | clientError (code : Nat) (msg : String)
  deriving DecidableEq

/-- The stock-update route `puncher_update_stock` after its session/role and
missing-field guards: calls `update_stock` and maps `None` to the single
400 response `'Failed to update stock. Stock cannot be negative.'`. -/
def puncher_update_stock (db : DB) (item_id : Nat) (quantity_change : Int)
    (username : String) (notes : String) : DB × ApiResult :=
  match update_stock db item_id quantity_change username notes with
  | some (db1, item) => (db1, ApiResult.ok item)
  | none => (db, ApiResult.clientError 400 "Failed to update stock. Stock cannot be negative.")

/-- One mutating call of the core, with its `datetime.now()` where used. -/
inductive Op where
  | submitOrder (now : Nat) (customer_name : String) (items : List CartLine)
      (total : Int) (cashier_username : String) (payment_method : String)
  | completeOrder (now : Nat) (order_id : Nat)
  | addItem (name : String) (price : Int) (category : String) (stock : Int)
      (requires_side : Bool) (puncher_username : String)
  | editItem (item_id : Nat) (name : String) (price : Int) (category : String)
      (requires_side : Bool) (puncher_username : String)
  | adjustStock (item_id : Nat) (quantity_change : Int) (puncher_username : String)
      (notes : String)
  | deleteItem (item_id : Nat)

/-- The committed state after one call: a call that returns `None` by
raising or by an explicit guard before `conn.commit()` leaves the state
unchanged. -/
def apply_op (db : DB) : Op → DB
  | .submitOrder now customer items total cashier pay =>
    match create_order_db db now customer items total cashier pay with
    | some (db1, _) => db1
    | none => db
  | .completeOrder now oid => (complete_order_db db now oid).1
  | .addItem name price cat stock rs u =>
    match add_menu_item db name price cat stock rs u with
    | some (db1, _) => db1
    | none => db
  | .editItem id name price cat rs u => (update_menu_item db id name price cat rs u).1
  | .adjustStock id qc u n =>
    match update_stock db id qc u n with
    | some (db1, _) => db1
    | none => db
  | .deleteItem id => (delete_menu_item db id).2

/-- Stock of the (first) menu item with a given id, if any. -/
def stockOf (db : DB) (i : Nat) : Option Int :=
  (db.menu_items.find? (fun m => m.id == i)).map (fun m => m.stock)

/-- Total quantity a cart orders of item `i`. -/
def cartQty (i : Nat) : List CartLine → Int
  | [] => 0
  | line :: rest => (if line.id == i then line.quantity else 0) + cartQty i rest

/-- Every stock-history row balances: `stock_after = stock_before +
quantity_change`. -/
def HistOk (db : DB) : Prop :=
  ∀ e ∈ db.stock_history, e.stock_after = e.stock_before + e.quantity_change

/-- Every menu item has non-negative stock. -/
def StockOk (db : DB) : Prop :=
  ∀ m ∈ db.menu_items, 0 ≤ m.stock

instance (db : DB) : Decidable (HistOk db) := by
  unfold HistOk; infer_instance

instance (db : DB) : Decidable (StockOk db) := by
  unfold StockOk; infer_instance

/-! ## General lemmas about the list-level operations -/

/-- `find?` commutes with a `map` whose function does not change the
predicate's verdict (used for the SQL `UPDATE ... WHERE id = ?` pattern,
whose row update keeps the id). -/
theorem find?_map_of_pred_eq {α : Type} (f : α → α) (p : α → Bool)
    (hp : ∀ a, p (f a) = p a) (l : List α) :
    (l.map f).find? p = (l.find? p).map f := by
  induction l with
  | nil => rfl
  | cons a t ih =>
    cases h : p a with
    | true =>
      rw [List.map_cons, List.find?_cons_of_pos _ (by rw [hp]; exact h),
        List.find?_cons_of_pos _ h]
      rfl
    | false =>
      rw [List.map_cons, List.find?_cons_of_neg _ (by rw [hp]; simp [h]),
        List.find?_cons_of_neg _ (by simp [h]), ih]

/-- An `UPDATE ... WHERE` whose condition matches no row leaves the table
unchanged. -/
theorem map_id_of_no_match {α : Type} (f : α → α) (p : α → Bool)
    (hf : ∀ a, p a = false → f a = a) (l : List α) (h : ∀ a ∈ l, ¬ p a = true) :
    l.map f = l := by
  induction l with
  | nil => rfl
  | cons a t ih =>
    rw [List.map_cons, hf a (by simpa using h a (List.mem_cons_self a t)),
      ih (fun x hx => h x (List.mem_cons_of_mem a hx))]

/-- Membership on the right of a `List.Forall₂`. -/
theorem forall₂_mem_right {α β : Type} {P : α → β → Prop} :
    ∀ {l : List α} {l' : List β}, List.Forall₂ P l l' → ∀ b ∈ l', ∃ a, P a b := by
  intro l l' h
  induction h with
  | nil => intro b hb; cases hb
  | cons hab _ ih =>
    intro b hb
    rcases List.mem_cons.mp hb with hb | hb
    · exact ⟨_, hb ▸ hab⟩
    · exact ih b hb

/-- Stock of the (first) item with a given id in a raw `menu_items` table. -/
def stockIn (l : List MenuItem) (i : Nat) : Option Int :=
  (l.find? (fun m => m.id == i)).map (fun m => m.stock)

theorem stockOf_eq_stockIn (db : DB) (i : Nat) : stockOf db i = stockIn db.menu_items i := rfl

/-- Effect on `stockIn` of `UPDATE menu_items SET stock = stock - q WHERE id = a`. -/
theorem stockIn_map_sub (l : List MenuItem) (a : Nat) (q : Int) (i : Nat) :
    stockIn (l.map (fun m => if m.id == a then { m with stock := m.stock - q } else m)) i =
      if a = i then (stockIn l i).map (fun s => s - q) else stockIn l i := by
  have hp : ∀ m : MenuItem,
      (((if m.id == a then { m with stock := m.stock - q } else m) : MenuItem).id == i)
        = (m.id == i) := by
    intro m; by_cases h : m.id == a <;> simp [h]
  unfold stockIn
  rw [find?_map_of_pred_eq _ _ hp, Option.map_map, Option.map_map]
  by_cases hai : a = i
  · subst hai
    rw [if_pos rfl]
    cases hfind : l.find? (fun m => m.id == a) with
    | none => rfl
    | some m =>
      have hm := List.find?_some hfind
      simp only [beq_iff_eq] at hm
      simp [Function.comp, hm]
  · rw [if_neg hai]
    cases hfind : l.find? (fun m => m.id == i) with
    | none => rfl
    | some m =>
      have hm := List.find?_some hfind
      simp only [beq_iff_eq] at hm
      have hma : ¬ m.id = a := by omega
      simp [Function.comp, hma]

/-- Effect on `stockIn` of `UPDATE menu_items SET stock = v WHERE id = a`. -/
theorem stockIn_map_set (l : List MenuItem) (a : Nat) (v : Int) (i : Nat) :
    stockIn (l.map (fun m => if m.id == a then { m with stock := v } else m)) i =
      if a = i then (l.find? (fun m => m.id == a)).map (fun _ => v) else stockIn l i := by
  have hp : ∀ m : MenuItem,
      (((if m.id == a then { m with stock := v } else m) : MenuItem).id == i)
        = (m.id == i) := by
    intro m; by_cases h : m.id == a <;> simp [h]
  unfold stockIn
  rw [find?_map_of_pred_eq _ _ hp, Option.map_map]
  by_cases hai : a = i
  · subst hai
    rw [if_pos rfl]
    cases hfind : l.find? (fun m => m.id == a) with
    | none => rfl
    | some m =>
      have hm := List.find?_some hfind
      simp only [beq_iff_eq] at hm
      simp [Function.comp, hm]
  · rw [if_neg hai]
    cases hfind : l.find? (fun m => m.id == i) with
    | none => rfl
    | some m =>
      have hm := List.find?_some hfind
      simp only [beq_iff_eq] at hm
      have hma : ¬ m.id = a := by omega
      simp [Function.comp, hma]

/-! ## The per-line loop of `create_order_db` -/

/-- What a `sale` stock-history row written for cart line `line` of order
`oid` looks like. -/
def SaleEntryFor (oid : Nat) (line : CartLine) (e : StockHistoryEntry) : Prop :=
  e.menu_item_id = line.id ∧ e.menu_item_name = line.name ∧
    e.quantity_change = -line.quantity ∧
    e.stock_after = e.stock_before + e.quantity_change ∧
    e.change_type = "sale" ∧ e.notes = "Order #" ++ toString oid ∧
    e.puncher_id = none

theorem cartQty_cons (i : Nat) (line : CartLine) (rest : List CartLine) :
    cartQty i (line :: rest) = (if line.id == i then line.quantity else 0) + cartQty i rest :=
  rfl

theorem saleEntryFor_mkSaleEntry (oid : Nat) (line : CartLine) (sb : Int) :
    SaleEntryFor oid line (mkSaleEntry oid line sb) := by
  refine ⟨rfl, rfl, rfl, ?_, rfl, rfl, rfl⟩
  show sb - line.quantity = sb + -line.quantity
  omega

/-- Full characterisation of the per-line loop on success: the `orders` and
`users` tables and the id counters are untouched, one order-item row is
appended per cart line, one `sale` ledger row is appended per cart line, and
every item's stock drops by exactly the total quantity the cart orders of
it. -/
theorem create_order_lines_spec (oid : Nat) (items : List CartLine) :
    ∀ (db db' : DB), create_order_lines oid items db = some db' →
      db'.users = db.users ∧
      db'.orders = db.orders ∧
      db'.next_menu_item_id = db.next_menu_item_id ∧
      db'.next_order_id = db.next_order_id ∧
      db'.order_items = db.order_items ++ items.map (mkOrderItem oid) ∧
      (∃ news, db'.stock_history = db.stock_history ++ news ∧
        List.Forall₂ (SaleEntryFor oid) items news) ∧
      (∀ i, stockIn db'.menu_items i
        = (stockIn db.menu_items i).map (fun s => s - cartQty i items)) := by
  induction items with
  | nil =>
    intro db db' h
    simp only [create_order_lines] at h
    cases h
    refine ⟨rfl, rfl, rfl, rfl, by simp, ⟨[], by simp, List.Forall₂.nil⟩, ?_⟩
    intro i
    cases stockIn db.menu_items i <;> simp [cartQty]
  | cons line rest ih =>
    intro db db' h
    simp only [create_order_lines] at h
    cases hfind : db.menu_items.find? (fun m => m.id == line.id) with
    | none => rw [hfind] at h; cases h
    | some it =>
      rw [hfind] at h
      obtain ⟨hu, ho, hnm, hno, hoi, ⟨news, hsh, hf⟩, hst⟩ := ih _ db' h
      dsimp only at hu ho hnm hno hoi hsh hst
      refine ⟨hu, ho, hnm, hno, ?_, ?_, ?_⟩
      · rw [hoi, List.map_cons, List.append_assoc, List.singleton_append]
      · refine ⟨mkSaleEntry oid line it.stock :: news, ?_, ?_⟩
        · rw [hsh, List.append_assoc, List.singleton_append]
        · exact List.Forall₂.cons (saleEntryFor_mkSaleEntry oid line it.stock) hf
      · intro i
        rw [hst i, stockIn_map_sub]
        by_cases hli : line.id = i
        · subst hli
          rw [if_pos rfl]
          unfold stockIn
          rw [hfind]
          simp only [Option.map_some', Option.map_map, Function.comp, cartQty,
            beq_self_eq_true, if_true, Option.some.injEq]
          omega
        · rw [if_neg hli]
          have hne : (line.id == i) = false := by
            simp only [beq_eq_false_iff_ne]
            exact hli
          cases hval : stockIn db.menu_items i with
          | none => rfl
          | some s =>
            simp only [Option.map_some', Option.some.injEq, cartQty_cons, hne,
              Bool.false_eq_true, if_false]
            omega

/-- Inversion of a successful `create_order_db` call: the returned order is
the constructed row and the per-line loop succeeded on the state holding the
new order row. -/
theorem create_order_db_inv (db : DB) (now : Nat) (customer_name : String)
    (items : List CartLine) (total : Int) (cashier_username : String)
    (payment_method : String) (db' : DB) (order : Order)
    (h : create_order_db db now customer_name items total cashier_username payment_method
      = some (db', order)) :
    order = mkOrder db now customer_name total cashier_username payment_method ∧
    create_order_lines db.next_order_id items
      { db with
        orders := db.orders ++ [mkOrder db now customer_name total cashier_username payment_method]
        next_order_id := db.next_order_id + 1 } = some db' := by
  simp only [create_order_db] at h
  cases hcl : create_order_lines db.next_order_id items
      { db with
        orders := db.orders ++ [mkOrder db now customer_name total cashier_username payment_method]
        next_order_id := db.next_order_id + 1 } with
  | none => rw [hcl] at h; cases h
  | some db2 =>
    rw [hcl] at h
    simp only [Option.some.injEq, Prod.mk.injEq] at h
    exact ⟨h.2.symm, congrArg some h.1⟩

/-- C3: on every successful `create_order_db` call, exactly one order row is
appended, with `status = 'pending'`, `ready_time = now + 15` minutes and the
caller-supplied total (and other fields) stored verbatim with no cross-check
against the cart; one order-item row per cart line carrying the price exactly
as supplied; each referenced item's stock is decremented by the cart's
quantities for it; and one `sale` stock-history row per cart line whose note
references the new order id and whose `puncher_id` is NULL. -/
theorem submit_order_success_effects (db : DB) (now : Nat) (customer_name : String)
    (items : List CartLine) (total : Int) (cashier_username : String)
    (payment_method : String) (db' : DB) (order : Order)
    (h : create_order_db db now customer_name items total cashier_username payment_method
      = some (db', order)) :
    order.id = db.next_order_id ∧
    order.customer_name = customer_name ∧
    order.total = total ∧
    order.status = "pending" ∧
    order.payment_method = payment_method ∧
    order.timestamp = now ∧
    order.ready_time = some (now + 15) ∧
    order.completed_at = none ∧
    db'.orders = db.orders ++ [order] ∧
    db'.order_items = db.order_items ++ items.map (mkOrderItem order.id) ∧
    (∃ news, db'.stock_history = db.stock_history ++ news ∧
      List.Forall₂ (SaleEntryFor order.id) items news) ∧
    (∀ i, stockOf db' i = (stockOf db i).map (fun s => s - cartQty i items)) := by
  obtain ⟨hord, hcl⟩ := create_order_db_inv db now customer_name items total
    cashier_username payment_method db' order h
  obtain ⟨hu, ho, hnm, hno, hoi, hnews, hst⟩ :=
    create_order_lines_spec db.next_order_id items _ db' hcl
  dsimp only at ho hoi hnews hst
  subst hord
  refine ⟨rfl, rfl, rfl, rfl, rfl, rfl, rfl, rfl, ho, hoi, hnews, ?_⟩
  intro i
  rw [stockOf_eq_stockIn, stockOf_eq_stockIn, hst i]

/-- A one-item catalog with a cashier user, for concrete evaluations. -/
def dbWors : DB :=
  { users := [{ id := 1, username := "cashier", password := "cash123", role := "cashier" }]
    menu_items := [{ id := 1, name := "Braaied Wors", price := 80, category := "Meat", stock := 50, requires_side := true }]
    orders := []
    order_items := []
    stock_history := []
    next_menu_item_id := 2
    next_order_id := 1 }

/-- A one-line cart: 3 Braaied Wors with a Jeqe side at client-computed unit
price 110. -/
def cartW : List CartLine :=
  [{ id := 1, name := "Braaied Wors", quantity := 3, price := 110, side_option := some "Jeqe" }]

/-- The order row produced by submitting `cartW` against `dbWors`. -/
def orderW : Order :=
  { id := 1, customer_name := "Thabo", total := 330, status := "pending",
    payment_method := "cash", timestamp := 100, ready_time := some 115,
    completed_at := none, cashier_id := some 1 }

/-- The database state after submitting `cartW` against `dbWors`. -/
def dbWorsAfter : DB :=
  { users := [{ id := 1, username := "cashier", password := "cash123", role := "cashier" }]
    menu_items := [{ id := 1, name := "Braaied Wors", price := 80, category := "Meat", stock := 47, requires_side := true }]
    orders := [orderW]
    order_items := [{ order_id := 1, menu_item_id := 1, menu_item_name := "Braaied Wors", quantity := 3, price := 110, side_option := some "Jeqe" }]
    stock_history := [{ menu_item_id := 1, menu_item_name := "Braaied Wors", quantity_change := -3, stock_before := 50, stock_after := 47, change_type := "sale", notes := "Order #1", puncher_id := none }]
    next_menu_item_id := 2
    next_order_id := 2 }

theorem submit_order_success_effects_witness :
    create_order_db dbWors 100 "Thabo" cartW 330 "cashier" "cash" = some (dbWorsAfter, orderW) ∧
    orderW.status = "pending" ∧
    orderW.ready_time = some 115 ∧
    dbWorsAfter.orders = dbWors.orders ++ [orderW] ∧
    stockOf dbWorsAfter 1 = some 47 := by
  have h : create_order_db dbWors 100 "Thabo" cartW 330 "cashier" "cash"
      = some (dbWorsAfter, orderW) := by decide
  obtain ⟨h1, h2, h3, h4, h5, h6, h7, h8, h9, h10, h11, h12⟩ :=
    submit_order_success_effects dbWors 100 "Thabo" cartW 330 "cashier" "cash"
      dbWorsAfter orderW h
  refine ⟨h, h4, ?_, h9, ?_⟩
  · exact h7
  · rw [h12 1]
    decide

/-! ## Inversion lemmas for the inventory operations -/

/-- A successful `update_stock` call fully described: the guard passed, the
matching rows get the new absolute stock, one ledger row is appended, and
the re-queried updated item is returned. -/
theorem update_stock_success (db : DB) (item_id : Nat) (quantity_change : Int)
    (u n : String) (item : MenuItem)
    (hfind : db.menu_items.find? (fun m => m.id == item_id) = some item)
    (hge : ¬ item.stock + quantity_change < 0) :
    update_stock db item_id quantity_change u n =
      some
        ({ db with
            menu_items := db.menu_items.map
              (fun m => if m.id == item_id then { m with stock := item.stock + quantity_change } else m)
            stock_history := db.stock_history ++
              [{ menu_item_id := item_id
                 menu_item_name := item.name
                 quantity_change := quantity_change
                 stock_before := item.stock
                 stock_after := item.stock + quantity_change
                 change_type := if quantity_change > 0 then "restock" else "adjustment"
                 notes := n
                 puncher_id := get_user_id db u }] },
         { item with stock := item.stock + quantity_change }) := by
  have hid := List.find?_some hfind
  have hp : ∀ m : MenuItem,
      (((if m.id == item_id then { m with stock := item.stock + quantity_change } else m)
        : MenuItem).id == item_id) = (m.id == item_id) := by
    intro m; by_cases h : m.id == item_id <;> simp [h]
  simp only [update_stock, hfind, if_neg hge]
  rw [find?_map_of_pred_eq _ _ hp, hfind]
  simp [hid]
  simp only [beq_iff_eq] at hid
  intro hcontra
  exact absurd hid hcontra

/-- `update_stock` rejects with `None` when the new stock would be negative. -/
theorem update_stock_reject (db : DB) (item_id : Nat) (quantity_change : Int)
    (u n : String) (item : MenuItem)
    (hfind : db.menu_items.find? (fun m => m.id == item_id) = some item)
    (hlt : item.stock + quantity_change < 0) :
    update_stock db item_id quantity_change u n = none := by
  simp only [update_stock, hfind, if_pos hlt]

/-- `update_stock` returns `None` when no menu item has the given id. -/
theorem update_stock_missing (db : DB) (item_id : Nat) (quantity_change : Int)
    (u n : String)
    (hnone : db.menu_items.find? (fun m => m.id == item_id) = none) :
    update_stock db item_id quantity_change u n = none := by
  simp only [update_stock, hnone]

/-- The state committed by a successful `add_menu_item` call. -/
theorem add_menu_item_state (db : DB) (name : String) (price : Int)
    (category : String) (stock : Int) (rs : Bool) (u : String) (db1 : DB) (it : MenuItem)
    (h : add_menu_item db name price category stock rs u = some (db1, it)) :
    db1 = { db with
      menu_items := db.menu_items ++
        [{ id := db.next_menu_item_id, name := name, price := price,
           category := category, stock := stock, requires_side := rs }]
      next_menu_item_id := db.next_menu_item_id + 1
      stock_history := db.stock_history ++
        [{ menu_item_id := db.next_menu_item_id, menu_item_name := name,
           quantity_change := stock, stock_before := 0, stock_after := stock,
           change_type := "initial", notes := "Initial stock",
           puncher_id := get_user_id db u }] } := by
  simp only [add_menu_item] at h
  cases hfind : (db.menu_items ++
      [({ id := db.next_menu_item_id, name := name, price := price,
          category := category, stock := stock, requires_side := rs } : MenuItem)]).find?
        (fun m => m.id == db.next_menu_item_id) with
  | none => rw [hfind] at h; cases h
  | some m =>
    rw [hfind] at h
    simp only [Option.some.injEq, Prod.mk.injEq] at h
    exact h.1.symm

/-- Every single operation preserves the ledger balance invariant. -/
theorem hist_ok_apply_op (db : DB) (op : Op) (h : HistOk db) : HistOk (apply_op db op) := by
  cases op with
  | submitOrder now customer items total cashier pay =>
    cases hc : create_order_db db now customer items total cashier pay with
    | none => simpa [apply_op, hc] using h
    | some p =>
      obtain ⟨db1, ord⟩ := p
      simp only [apply_op, hc]
      obtain ⟨hord, hcl⟩ :=
        create_order_db_inv db now customer items total cashier pay db1 ord hc
      obtain ⟨-, -, -, -, -, ⟨news, hsh, hf⟩, -⟩ :=
        create_order_lines_spec db.next_order_id items _ db1 hcl
      dsimp only at hsh
      intro e he
      rw [hsh] at he
      rcases List.mem_append.mp he with he | he
      · exact h e he
      · obtain ⟨line, hP⟩ := forall₂_mem_right hf e he
        exact hP.2.2.2.1
  | completeOrder now oid =>
    intro e he
    exact h e he
  | addItem name price cat stock rs u =>
    cases hc : add_menu_item db name price cat stock rs u with
    | none => simpa [apply_op, hc] using h
    | some p =>
      obtain ⟨db1, it⟩ := p
      simp only [apply_op, hc]
      have hstate := add_menu_item_state db name price cat stock rs u db1 it hc
      subst hstate
      intro e he
      rcases List.mem_append.mp he with he | he
      · exact h e he
      · rcases List.mem_singleton.mp he with rfl
        show stock = 0 + stock
        omega
  | editItem id name price cat rs u =>
    intro e he
    exact h e he
  | adjustStock id qc u n =>
    cases hfind : db.menu_items.find? (fun m => m.id == id) with
    | none => simpa [apply_op, update_stock_missing db id qc u n hfind] using h
    | some item =>
      by_cases hlt : item.stock + qc < 0
      · simpa [apply_op, update_stock_reject db id qc u n item hfind hlt] using h
      · simp only [apply_op, update_stock_success db id qc u n item hfind hlt]
        intro e he
        rcases List.mem_append.mp he with he | he
        · exact h e he
        · rcases List.mem_singleton.mp he with rfl
          show item.stock + qc = item.stock + qc
          rfl
  | deleteItem id =>
    by_cases hcnt : (db.order_items.filter (fun oi => oi.menu_item_id == id)).length > 0
    · simpa [apply_op, delete_menu_item, hcnt] using h
    · simp only [apply_op, delete_menu_item, hcnt, if_neg, if_false]
      intro e he
      exact h e (List.mem_of_mem_filter he)

/-- C4: for every stock-history row ever written, starting from a balanced
ledger, after any sequence of operations every row still satisfies
`stock_after = stock_before + quantity_change`. -/
theorem stock_history_rows_balance (ops : List Op) (db : DB) (h : HistOk db) :
    HistOk (ops.foldl apply_op db) := by
  induction ops generalizing db with
  | nil => exact h
  | cons op rest ih => exact ih (apply_op db op) (hist_ok_apply_op db op h)

/-- An empty starting state for the ledger-balance witness. -/
def dbEmpty : DB :=
  { users := [{ id := 1, username := "puncher", password := "stock123", role := "puncher" }]
    menu_items := []
    orders := []
    order_items := []
    stock_history := []
    next_menu_item_id := 1
    next_order_id := 1 }

theorem stock_history_rows_balance_witness :
    HistOk dbEmpty ∧
    HistOk ([Op.addItem "Usu" 100 "Meat" 40 true "puncher",
      Op.adjustStock 1 (-10) "puncher" "correction"].foldl apply_op dbEmpty) :=
  ⟨by decide,
   stock_history_rows_balance
     [Op.addItem "Usu" 100 "Meat" 40 true "puncher",
      Op.adjustStock 1 (-10) "puncher" "correction"] dbEmpty (by decide)⟩

/-- A catalog holding 3 units of item 1, for the overselling evaluations. -/
def dbShort : DB :=
  { users := [{ id := 1, username := "cashier", password := "cash123", role := "cashier" }]
    menu_items := [{ id := 1, name := "Usu", price := 100, category := "Meat", stock := 3, requires_side := true }]
    orders := []
    order_items := []
    stock_history := []
    next_menu_item_id := 2
    next_order_id := 1 }

/-- A cart ordering 5 units of item 1 — more than the 3 in stock. -/
def cartOver : List CartLine :=
  [{ id := 1, name := "Usu", quantity := 5, price := 100, side_option := some "Uphuthu" }]

/-- C1: `create_order_db` performs no stock-availability check. Submitting a
cart whose quantity (5) exceeds the item's stock (3) does not fail: the call
succeeds, commits the order row, its line item and a `sale` ledger row, and
drives the item's stock to `-2`. There is no `InsufficientStockError`
anywhere in the code. -/
theorem submit_order_no_stock_check :
    (create_order_db dbShort 0 "Sipho" cartOver 500 "cashier" "cash").isSome = true ∧
    ((create_order_db dbShort 0 "Sipho" cartOver 500 "cashier" "cash").map
        (fun p => (stockOf p.1 1, p.1.orders.length, p.1.order_items.length,
          p.1.stock_history.length)))
      = some (some (-2), 1, 1, 1) := by
  constructor
  · decide
  · decide

/-- C2: the `stock ≥ 0` invariant is violated by `create_order_db`: from a
state where every stock is non-negative, submitting an oversized cart
commits a state with a negative stock. -/
theorem stock_invariant_violated :
    StockOk dbShort ∧
    ¬ StockOk (apply_op dbShort
      (Op.submitOrder 0 "Sipho" cartOver 500 "cashier" "cash")) := by
  constructor
  · decide
  · decide

/-- C5: for an existing item, `update_stock` rejects exactly when
`stock_before + delta < 0`, and a rejection commits nothing: the state is
completely unchanged and no ledger row is appended. -/
theorem adjust_stock_underflow_rejection (db : DB) (item_id : Nat) (item : MenuItem)
    (quantity_change : Int) (u notes : String)
    (hfind : db.menu_items.find? (fun m => m.id == item_id) = some item) :
    (item.stock + quantity_change < 0 →
      update_stock db item_id quantity_change u notes = none ∧
      apply_op db (Op.adjustStock item_id quantity_change u notes) = db) ∧
    (¬ item.stock + quantity_change < 0 →
      (update_stock db item_id quantity_change u notes).isSome = true) := by
  constructor
  · intro hlt
    have hrej := update_stock_reject db item_id quantity_change u notes item hfind hlt
    exact ⟨hrej, by simp [apply_op, hrej]⟩
  · intro hge
    rw [update_stock_success db item_id quantity_change u notes item hfind hge]
    rfl

/-- A catalog holding 50 units of item 1, with a puncher user. -/
def dbAdj : DB :=
  { users := [{ id := 1, username := "puncher", password := "stock123", role := "puncher" }]
    menu_items := [{ id := 1, name := "Usu", price := 100, category := "Meat", stock := 50, requires_side := true }]
    orders := []
    order_items := []
    stock_history := []
    next_menu_item_id := 2
    next_order_id := 1 }

/-- The single menu item of `dbAdj`. -/
def itemAdj : MenuItem :=
  { id := 1, name := "Usu", price := 100, category := "Meat", stock := 50, requires_side := true }

theorem adjust_stock_underflow_rejection_witness :
    dbAdj.menu_items.find? (fun m => m.id == 1) = some itemAdj ∧
    itemAdj.stock + (-60) < 0 ∧
    update_stock dbAdj 1 (-60) "puncher" "" = none ∧
    apply_op dbAdj (Op.adjustStock 1 (-60) "puncher" "") = dbAdj :=
  have hf : dbAdj.menu_items.find? (fun m => m.id == 1) = some itemAdj := by decide
  have h := (adjust_stock_underflow_rejection dbAdj 1 itemAdj (-60) "puncher" "" hf).1
    (by decide)
  ⟨hf, by decide, h.1, h.2⟩

/-- C6: on every successful `update_stock` call the appended ledger row's
`change_type` is `'restock'` exactly when `delta > 0` and `'adjustment'`
otherwise — the sign of `delta` is the sole determinant; in particular
`delta = 0` on an item with non-negative stock is accepted, leaves every
stock unchanged, and still appends a row with `quantity_change = 0` and
`change_type = 'adjustment'`. -/
theorem adjust_stock_change_type (db : DB) (item_id : Nat) (item : MenuItem)
    (u notes : String)
    (hfind : db.menu_items.find? (fun m => m.id == item_id) = some item) :
    (∀ quantity_change db' it',
      update_stock db item_id quantity_change u notes = some (db', it') →
      ∃ e, db'.stock_history = db.stock_history ++ [e] ∧
        e.quantity_change = quantity_change ∧
        e.change_type = (if quantity_change > 0 then "restock" else "adjustment")) ∧
    (0 ≤ item.stock →
      ∃ db' it', update_stock db item_id 0 u notes = some (db', it') ∧
        it'.stock = item.stock ∧
        (∀ i, stockOf db' i = stockOf db i) ∧
        (∃ e, db'.stock_history = db.stock_history ++ [e] ∧
          e.quantity_change = 0 ∧ e.change_type = "adjustment")) := by
  constructor
  · intro quantity_change db' it' hsucc
    by_cases hlt : item.stock + quantity_change < 0
    · rw [update_stock_reject db item_id quantity_change u notes item hfind hlt] at hsucc
      cases hsucc
    · rw [update_stock_success db item_id quantity_change u notes item hfind hlt] at hsucc
      simp only [Option.some.injEq, Prod.mk.injEq] at hsucc
      obtain ⟨hdb, hit⟩ := hsucc
      subst hdb
      exact ⟨_, rfl, rfl, rfl⟩
  · intro h0
    refine ⟨_, _, update_stock_success db item_id 0 u notes item hfind (by omega),
      ?_, ?_, ?_⟩
    · show item.stock + 0 = item.stock
      omega
    · intro i
      rw [stockOf_eq_stockIn, stockOf_eq_stockIn]
      dsimp only
      rw [stockIn_map_set]
      by_cases hai : item_id = i
      · subst hai
        rw [if_pos rfl, hfind]
        unfold stockIn
        rw [hfind]
        simp only [Option.map_some', Option.some.injEq]
        omega
      · rw [if_neg hai]
    · refine ⟨_, rfl, rfl, ?_⟩
      show (if (0 : Int) > 0 then "restock" else "adjustment") = "adjustment"
      simp

theorem adjust_stock_change_type_witness :
    0 ≤ itemAdj.stock ∧
    (∃ db' it', update_stock dbAdj 1 0 "puncher" "stocktake" = some (db', it') ∧
      it'.stock = itemAdj.stock ∧
      (∀ i, stockOf db' i = stockOf dbAdj i) ∧
      (∃ e, db'.stock_history = dbAdj.stock_history ++ [e] ∧
        e.quantity_change = 0 ∧ e.change_type = "adjustment")) :=
  have hf : dbAdj.menu_items.find? (fun m => m.id == 1) = some itemAdj := by decide
  ⟨by decide,
   (adjust_stock_change_type dbAdj 1 itemAdj "puncher" "stocktake" hf).2 (by decide)⟩

/-- C7: `complete_order_db` on an existing order (of any prior status, so a
second call on an already-ready order just re-stamps the completion time)
returns it with `status = 'ready'` and `completed_at = now` and all other
fields unchanged; on an unknown id it returns `None` with the state fully
unchanged; and no order row is ever created or deleted by the call. -/
theorem complete_order_behaviour (db : DB) (now : Nat) (order_id : Nat) :
    (∀ o, db.orders.find? (fun x => x.id == order_id) = some o →
      (complete_order_db db now order_id).2
        = some { o with status := "ready", completed_at := some now }) ∧
    (db.orders.find? (fun x => x.id == order_id) = none →
      (complete_order_db db now order_id).2 = none ∧
      (complete_order_db db now order_id).1 = db) ∧
    (complete_order_db db now order_id).1.orders.length = db.orders.length := by
  have hp : ∀ o : Order,
      (((if o.id == order_id then { o with status := "ready", completed_at := some now }
        else o) : Order).id == order_id) = (o.id == order_id) := by
    intro o; by_cases h : o.id == order_id <;> simp [h]
  refine ⟨?_, ?_, ?_⟩
  · intro o hfind
    have hid := List.find?_some hfind
    simp only [complete_order_db]
    rw [find?_map_of_pred_eq _ _ hp, hfind]
    simp only [Option.map_some', Option.some.injEq]
    rw [if_pos hid]
  · intro hnone
    constructor
    · simp only [complete_order_db]
      rw [find?_map_of_pred_eq _ _ hp, hnone]
      rfl
    · simp only [complete_order_db]
      have hmap : db.orders.map
          (fun o => if o.id == order_id then
            { o with status := "ready", completed_at := some now } else o) = db.orders := by
        refine map_id_of_no_match _ (fun x => x.id == order_id) ?_ _ ?_
        · intro o ho
          simp [ho]
        · intro o ho
          exact List.find?_eq_none.mp hnone o ho
      rw [hmap]
  · simp only [complete_order_db, List.length_map]

/-- A pending order with id 1. -/
def orderP : Order :=
  { id := 1, customer_name := "Zanele", total := 150, status := "pending",
    payment_method := "cash", timestamp := 10, ready_time := some 25,
    completed_at := none, cashier_id := some 1 }

/-- A database holding only `orderP`. -/
def dbOrd : DB :=
  { users := [{ id := 1, username := "kitchen", password := "cook123", role := "kitchen" }]
    menu_items := []
    orders := [orderP]
    order_items := []
    stock_history := []
    next_menu_item_id := 1
    next_order_id := 2 }

/-- A database whose only order is already ready (completed at 30). -/
def dbOrdReady : DB :=
  { users := [{ id := 1, username := "kitchen", password := "cook123", role := "kitchen" }]
    menu_items := []
    orders := [{ orderP with status := "ready", completed_at := some 30 }]
    order_items := []
    stock_history := []
    next_menu_item_id := 1
    next_order_id := 2 }

theorem complete_order_behaviour_witness :
    (complete_order_db dbOrd 30 1).2
      = some { orderP with status := "ready", completed_at := some 30 } ∧
    (complete_order_db dbOrdReady 99 1).2
      = some { orderP with status := "ready", completed_at := some 99 } ∧
    (complete_order_db dbOrd 30 77).2 = none ∧
    (complete_order_db dbOrd 30 77).1 = dbOrd :=
  have h1 := (complete_order_behaviour dbOrd 30 1).1 orderP (by decide)
  have h2 := (complete_order_behaviour dbOrdReady 99 1).1
    { orderP with status := "ready", completed_at := some 30 } (by decide)
  have h3 := (complete_order_behaviour dbOrd 30 77).2.1 (by decide)
  ⟨h1, by rw [h2], h3.1, h3.2⟩

/-- C8: `delete_menu_item` returns a structured rejection (`success = false`
with a message, not a fault) whenever some order item references the item,
leaving the whole state unchanged; when nothing references it, it reports
success, deletes the menu item row, cascades deletion of the item's whole
stock history, and touches nothing else. -/
theorem delete_item_behaviour (db : DB) (item_id : Nat) :
    ((∃ oi ∈ db.order_items, oi.menu_item_id = item_id) →
      (delete_menu_item db item_id).1.success = false ∧
      (delete_menu_item db item_id).1.message
        = "Cannot delete item that has been used in orders" ∧
      (delete_menu_item db item_id).2 = db) ∧
    ((∀ oi ∈ db.order_items, ¬ oi.menu_item_id = item_id) →
      (delete_menu_item db item_id).1.success = true ∧
      (delete_menu_item db item_id).2.menu_items
        = db.menu_items.filter (fun m => !(m.id == item_id)) ∧
      (delete_menu_item db item_id).2.stock_history
        = db.stock_history.filter (fun e => !(e.menu_item_id == item_id)) ∧
      (delete_menu_item db item_id).2.orders = db.orders ∧
      (delete_menu_item db item_id).2.order_items = db.order_items) := by
  constructor
  · rintro ⟨oi, hmem, hid⟩
    have hpos : (db.order_items.filter (fun x => x.menu_item_id == item_id)).length > 0 := by
      have hin : oi ∈ db.order_items.filter (fun x => x.menu_item_id == item_id) := by
        rw [List.mem_filter]
        exact ⟨hmem, by simp [hid]⟩
      exact List.length_pos_of_mem hin
    simp [delete_menu_item, hpos]
  · intro hall
    have hzero : (db.order_items.filter (fun x => x.menu_item_id == item_id)).length = 0 := by
      rw [List.length_eq_zero, List.filter_eq_nil_iff]
      intro a ha
      simp [hall a ha]
    have hneg : ¬ (db.order_items.filter (fun x => x.menu_item_id == item_id)).length > 0 := by
      omega
    simp [delete_menu_item, hneg]

/-- The referencing order item of the `delete_menu_item` witness. -/
def oiDel : OrderItem :=
  { order_id := 1, menu_item_id := 1, menu_item_name := "Usu", quantity := 2,
    price := 100, side_option := none }

/-- The `initial` ledger row of item 1 in the deletion witnesses. -/
def histDel : StockHistoryEntry :=
  { menu_item_id := 1
    menu_item_name := "Usu"
    quantity_change := 50
    stock_before := 0
    stock_after := 50
    change_type := "initial"
    notes := "Initial stock"
    puncher_id := some 1 }

/-- A database in which item 1 is referenced by an order item and has
history. -/
def dbDel : DB :=
  { users := []
    menu_items := [itemAdj]
    orders := []
    order_items := [oiDel]
    stock_history := [histDel]
    next_menu_item_id := 2
    next_order_id := 2 }

/-- The same database with no referencing order items. -/
def dbDelFree : DB :=
  { users := []
    menu_items := [itemAdj]
    orders := []
    order_items := []
    stock_history := [histDel]
    next_menu_item_id := 2
    next_order_id := 2 }

theorem delete_item_behaviour_witness :
    ((delete_menu_item dbDel 1).1.success = false ∧
      (delete_menu_item dbDel 1).2 = dbDel) ∧
    ((delete_menu_item dbDelFree 1).1.success = true ∧
      (delete_menu_item dbDelFree 1).2.menu_items = [] ∧
      (delete_menu_item dbDelFree 1).2.stock_history = []) :=
  have h1 := (delete_item_behaviour dbDel 1).1 ⟨oiDel, by simp [dbDel], rfl⟩
  have h2 := (delete_item_behaviour dbDelFree 1).2 (by simp [dbDelFree])
  ⟨⟨h1.1, h1.2.2⟩, ⟨h2.1, by rw [h2.2.1]; decide, by rw [h2.2.2.1]; decide⟩⟩

/-- C9: `update_menu_item` changes only the descriptive fields of the
targeted item: every item's id and stock are unchanged (as a projection of
the whole table), no stock-history row is written, and the other tables are
untouched. -/
theorem edit_item_frame (db : DB) (item_id : Nat) (name : String) (price : Int)
    (category : String) (requires_side : Bool) (u : String) :
    (update_menu_item db item_id name price category requires_side u).1.menu_items.map
        (fun m => (m.id, m.stock))
      = db.menu_items.map (fun m => (m.id, m.stock)) ∧
    (update_menu_item db item_id name price category requires_side u).1.stock_history
      = db.stock_history ∧
    (update_menu_item db item_id name price category requires_side u).1.orders
      = db.orders ∧
    (update_menu_item db item_id name price category requires_side u).1.order_items
      = db.order_items := by
  refine ⟨?_, rfl, rfl, rfl⟩
  simp only [update_menu_item]
  rw [List.map_map]
  apply List.map_congr_left
  intro m hm
  by_cases h : m.id == item_id <;> simp [Function.comp, h]

/-- C10: calling `update_stock` with an id matching no menu item returns the
same rejection value (`None`) as a stock-underflow rejection — with no
mutation — so the HTTP route answers with the single 400 response
`'Failed to update stock. Stock cannot be negative.'`, not a distinct
not-found error. -/
theorem unknown_item_stock_rejection (db : DB) (item_id : Nat) (quantity_change : Int)
    (u notes : String)
    (hnone : db.menu_items.find? (fun m => m.id == item_id) = none) :
    update_stock db item_id quantity_change u notes = none ∧
    puncher_update_stock db item_id quantity_change u notes
      = (db, ApiResult.clientError 400 "Failed to update stock. Stock cannot be negative.") ∧
    (∀ (db2 : DB) (id2 : Nat) (item2 : MenuItem) (qc2 : Int) (u2 n2 : String),
      db2.menu_items.find? (fun m => m.id == id2) = some item2 →
      item2.stock + qc2 < 0 →
      update_stock db2 id2 qc2 u2 n2 = update_stock db item_id quantity_change u notes) := by
  have hmiss := update_stock_missing db item_id quantity_change u notes hnone
  refine ⟨hmiss, ?_, ?_⟩
  · simp [puncher_update_stock, hmiss]
  · intro db2 id2 item2 qc2 u2 n2 hfind2 hlt2
    rw [update_stock_reject db2 id2 qc2 u2 n2 item2 hfind2 hlt2, hmiss]

theorem unknown_item_stock_rejection_witness :
    update_stock dbEmpty 7 5 "puncher" "" = none ∧
    puncher_update_stock dbEmpty 7 5 "puncher" ""
      = (dbEmpty, ApiResult.clientError 400 "Failed to update stock. Stock cannot be negative.") ∧
    update_stock dbAdj 1 (-60) "ghost" "x" = update_stock dbEmpty 7 5 "puncher" "" :=
  have h := unknown_item_stock_rejection dbEmpty 7 5 "puncher" "" (by decide)
  ⟨h.1, h.2.1, h.2.2 dbAdj 1 itemAdj (-60) "ghost" "x" (by decide) (by decide)⟩
